import Mathlib

/-!
Verification development for the backcast engine (`backcast_engine.py`).

The Python data model and the engine operations the specification talks
about are embedded shallowly below.  Mutable state (`datetime.now()`,
the on-disk data directory) is made explicit: every operation that reads
the clock takes a `now : String` argument, and the plan-document
directory is an association list from names to documents.  The dataclass
`__post_init__` hooks, which Python runs on every construction, become
explicit `...PostInit` functions applied wherever the Python code
constructs the corresponding record.  Python's unbounded recursion in
`calculate_path_length` is modelled with an explicit fuel parameter:
`none` means the recursion did not finish within the given depth budget,
so "diverges for every fuel" is the embedding of non-termination.
-/

namespace Backcast

/-- `StepStatus` enum of `backcast_engine.py`. -/
inductive StepStatus where
  | NOT_STARTED
  | IN_PROGRESS
  | COMPLETED
  | BLOCKED
  | SKIPPED
  deriving DecidableEq

/-- `StepType` enum. -/
inductive StepType where
  | MILESTONE
  | ACTION
  | DECISION
  | DEPENDENCY
  | RISK_MITIGATION
  deriving DecidableEq

/-- `Priority` enum. -/
inductive Priority where
  | CRITICAL
  | HIGH
  | MEDIUM
  | LOW
  deriving DecidableEq

/-- `Resource` dataclass. -/
structure Resource where
  name : String
  type : String
  amount : Option String := none
  notes : Option String := none
  deriving DecidableEq

/-- `Risk` dataclass. -/
structure Risk where
  description : String
  probability : String
  impact : String
  mitigation : String
  deriving DecidableEq

/-- `Step` dataclass. -/
structure Step where
  id : Nat
  title : String
  description : String
  type : StepType
  priority : Priority
  status : StepStatus
  estimated_duration : Option String
  resources_needed : List Resource
  dependencies : List Nat
  success_criteria : List String
  risks : List Risk
  notes : String := ""
  created_at : String := ""
  updated_at : String := ""
  completed_at : Option String := none
  deriving DecidableEq

/-- `Step.__post_init__`: runs on every construction of a `Step`;
sets `created_at` only if empty, and unconditionally refreshes
`updated_at` to the current time. -/
def stepPostInit (now : String) (s : Step) : Step :=
  { s with
    created_at := if s.created_at = "" then now else s.created_at
    updated_at := now }

/-- `Outcome` dataclass. -/
structure Outcome where
  title : String
  description : String
  success_criteria : List String
  constraints : List String
  timeline : String
  created_at : String := ""
  deriving DecidableEq

/-- `Outcome.__post_init__`: sets `created_at` only if empty. -/
def outcomePostInit (now : String) (o : Outcome) : Outcome :=
  { o with created_at := if o.created_at = "" then now else o.created_at }

/-- `BackcastPlan` dataclass. -/
structure BackcastPlan where
  outcome : Outcome
  steps : List Step
  created_at : String := ""
  updated_at : String := ""
  deriving DecidableEq

/-- `BackcastPlan.__post_init__`: sets `created_at` only if empty, and
unconditionally refreshes `updated_at`. -/
def planPostInit (now : String) (p : BackcastPlan) : BackcastPlan :=
  { p with
    created_at := if p.created_at = "" then now else p.created_at
    updated_at := now }

/-! ### `BackcastEngine.update_step`

`update_step(plan, step_id, **updates)` iterates `updates.items()` and
applies `setattr(step, key, value)` for every key that passes the
`hasattr(step, key)` check.  A keyword argument is therefore either one
of the fifteen `Step` fields or an unrecognized name; the latter is
modelled by `unknownField` (the `hasattr` guard makes it a no-op). -/

/-- One `key=value` entry of the `**updates` mapping of `update_step`. -/
inductive UpdateField where
  | id (v : Nat)
  | title (v : String)
  | description (v : String)
  | type (v : StepType)
  | priority (v : Priority)
  | status (v : StepStatus)
  | estimated_duration (v : Option String)
  | resources_needed (v : List Resource)
  | dependencies (v : List Nat)
  | success_criteria (v : List String)
  | risks (v : List Risk)
  | notes (v : String)
  | created_at (v : String)
  | updated_at (v : String)
  | completed_at (v : Option String)
  | unknownField (name : String)
  deriving DecidableEq

/-- `hasattr(step, key)` for an update entry. -/
def UpdateField.isKnown : UpdateField → Bool
  | .unknownField _ => false
  | _ => true

/-- `setattr(step, key, value)` guarded by `hasattr(step, key)`:
a known field is assigned, an unknown key is silently skipped. -/
def applyField (s : Step) : UpdateField → Step
  | .id v => { s with id := v }
  | .title v => { s with title := v }
  | .description v => { s with description := v }
  | .type v => { s with type := v }
  | .priority v => { s with priority := v }
  | .status v => { s with status := v }
  | .estimated_duration v => { s with estimated_duration := v }
  | .resources_needed v => { s with resources_needed := v }
  | .dependencies v => { s with dependencies := v }
  | .success_criteria v => { s with success_criteria := v }
  | .risks v => { s with risks := v }
  | .notes v => { s with notes := v }
  | .created_at v => { s with created_at := v }
  | .updated_at v => { s with updated_at := v }
  | .completed_at v => { s with completed_at := v }
  | .unknownField _ => s

/-- One fold step of the `updates.get('status')` lookup. -/
def statusEntry (acc : Option StepStatus) : UpdateField → Option StepStatus
  | .status v => some v
  | _ => acc

/-- `updates.get('status')`: the value stored under the `status` key
(kwargs keys are unique; with repeated entries the last assignment is
what the dict holds). -/
def getStatusUpdate (us : List UpdateField) : Option StepStatus :=
  us.foldl statusEntry none

/-- Whether the updates mapping carries an explicit `completed_at` entry. -/
def hasCompletedAtUpdate (us : List UpdateField) : Bool :=
  us.any (fun u => match u with | .completed_at _ => true | _ => false)

/-- The body of `update_step` run on the step found by id: apply all
recognized field changes, refresh `updated_at`, then set `completed_at`
to now iff `updates.get('status') == StepStatus.COMPLETED`. -/
def apply_updates (us : List UpdateField) (now : String) (s : Step) : Step :=
  let s1 := us.foldl applyField s
  let s2 := { s1 with updated_at := now }
  if getStatusUpdate us = some StepStatus.COMPLETED then
    { s2 with completed_at := some now }
  else s2

/-- The `for step in plan.steps: if step.id == step_id: ...; break` loop:
only the first step with a matching id is updated. -/
def update_first (sid : Nat) (us : List UpdateField) (now : String) :
    List Step → List Step
  | [] => []
  | s :: ss =>
    if s.id = sid then apply_updates us now s :: ss
    else s :: update_first sid us now ss

/-- `BackcastEngine.update_step`. -/
def update_step (p : BackcastPlan) (sid : Nat) (us : List UpdateField)
    (now : String) : BackcastPlan :=
  { p with steps := update_first sid us now p.steps, updated_at := now }

/-- `BackcastEngine.delete_step`: drop every step whose id matches, then
strip the deleted id from every remaining step's dependency list, then
refresh `plan.updated_at`. -/
def delete_step (p : BackcastPlan) (sid : Nat) (now : String) : BackcastPlan :=
  { p with
    steps := (p.steps.filter (fun s => s.id != sid)).map
      (fun s => { s with dependencies := s.dependencies.filter (fun d => d != sid) })
    updated_at := now }

/-! ### `BackcastEngine.get_next_actions` -/

/-- `completed_ids = {s.id for s in plan.steps if s.status == COMPLETED}`. -/
def completed_ids (p : BackcastPlan) : List Nat :=
  (p.steps.filter (fun s => s.status == StepStatus.COMPLETED)).map (fun s => s.id)

/-- The readiness test of `get_next_actions`: status in
`{NOT_STARTED, IN_PROGRESS}` and every dependency id in `completed_ids`. -/
def is_ready (p : BackcastPlan) (s : Step) : Bool :=
  (s.status == StepStatus.NOT_STARTED || s.status == StepStatus.IN_PROGRESS)
    && s.dependencies.all (fun d => (completed_ids p).contains d)

/-- The `priority_order` mapping used as sort key. -/
def priority_order : Priority → Nat
  | .CRITICAL => 0
  | .HIGH => 1
  | .MEDIUM => 2
  | .LOW => 3

/-- Comparison by sort key.  Python's `list.sort(key=...)` is the unique
stable sort by this total preorder, and insertion sort with `≤` on the
key is exactly that stable sort. -/
def stepLE (a b : Step) : Prop :=
  priority_order a.priority ≤ priority_order b.priority

instance : DecidableRel stepLE := fun a b =>
  inferInstanceAs (Decidable (priority_order a.priority ≤ priority_order b.priority))

instance : IsTotal Step stepLE :=
  ⟨fun a b => Nat.le_total (priority_order a.priority) (priority_order b.priority)⟩

instance : IsTrans Step stepLE :=
  ⟨fun _ _ _ h1 h2 => Nat.le_trans h1 h2⟩

/-- `BackcastEngine.get_next_actions`: collect the ready steps in plan
order, then stably sort them by priority. -/
def get_next_actions (p : BackcastPlan) : List Step :=
  List.insertionSort stepLE (p.steps.filter (is_ready p))

/-! ### `BackcastEngine.get_critical_path`

`calculate_path_length` is a memoized recursion with no cycle guard;
Python recursion depth becomes an explicit `fuel` argument and the memo
dictionary an association list threaded through the computation.
A result of `none` means the recursion did not complete within `fuel`
nested calls — since this holds for every `fuel` on a cyclic input, it
is the embedding of unbounded recursion. -/

/-- The memo dictionary of `calculate_path_length`. -/
abbrev Memo := List (Nat × Nat)

/-- `max(calculate_path_length(dep_id, memo) for dep_id in deps)`:
the generator evaluates the recursive calls left to right, threading the
(mutable) memo; Python values are always ≥ 1 so folding `max` from `0`
computes the same maximum over `Nat`. -/
def calcDepsWith (f : Memo → Nat → Option (Nat × Memo)) :
    List Nat → Memo → Nat → Option (Nat × Memo)
  | [], memo, acc => some (acc, memo)
  | d :: ds, memo, acc =>
    match f memo d with
    | none => none
    | some (v, memo1) => calcDepsWith f ds memo1 (max acc v)

/-- `calculate_path_length(step_id, memo)` with explicit fuel.  The memo
entry for `step_id` is written only after the recursive descent over its
dependencies returns (exactly as in the source, where `memo[step_id]` is
assigned after the `max(...)` call). -/
def calculate_path_length (sd : Nat → Option Step) :
    Nat → Memo → Nat → Option (Nat × Memo)
  | 0, _, _ => none
  | fuel + 1, memo, sid =>
    match memo.lookup sid with
    | some v => some (v, memo)
    | none =>
      match sd sid with
      | none => some (1, (sid, 1) :: memo)
      | some st =>
        if st.dependencies.isEmpty then some (1, (sid, 1) :: memo)
        else
          match calcDepsWith (calculate_path_length sd fuel) st.dependencies memo 0 with
          | none => none
          | some (m, memo1) => some (m + 1, (sid, m + 1) :: memo1)

/-- The `step_dict = {s.id: s for s in plan.steps}` comprehension
(later entries overwrite earlier ones on a duplicate id). -/
def step_dict (p : BackcastPlan) (sid : Nat) : Option Step :=
  p.steps.reverse.find? (fun s => s.id == sid)

/-- The `path_lengths = {step.id: calculate_path_length(step.id, memo) for
step in plan.steps}` comprehension, threading the shared memo. -/
def path_lengths (sd : Nat → Option Step) (fuel : Nat) :
    List Step → Memo → Option (List (Nat × Nat) × Memo)
  | [], memo => some ([], memo)
  | s :: ss, memo =>
    match calculate_path_length sd fuel memo s.id with
    | none => none
    | some (v, memo1) =>
      match path_lengths sd fuel ss memo1 with
      | none => none
      | some (rest, memo2) => some ((s.id, v) :: rest, memo2)

/-- `BackcastEngine.get_critical_path`: all steps whose path length equals
the maximum path length (`max(..., default=0)`). -/
def get_critical_path (fuel : Nat) (p : BackcastPlan) : Option (List Step) :=
  match path_lengths (step_dict p) fuel p.steps [] with
  | none => none
  | some (pls, _) =>
    let max_length := (pls.map (fun x => x.2)).foldr max 0
    some (p.steps.filter (fun s => pls.lookup s.id == some max_length))

/-! ### `BackcastEngine.calculate_progress` -/

/-- The result dictionary of `calculate_progress`.  The `total == 0`
branch of the source returns a dict WITHOUT a `not_started` key, which is
modelled by `not_started : Option Int` (`none` = key absent). -/
structure Progress where
  percent : ℚ
  completed : Nat
  total : Nat
  in_progress : Nat
  blocked : Nat
  not_started : Option Int
  deriving DecidableEq

/-- Python's `round(x, 1)` modelled over `ℚ` (float representation and
tie-breaking are irrelevant to the claims, which only test `percent = 0`). -/
def round1 (q : ℚ) : ℚ := ((round (q * 10) : ℤ) : ℚ) / 10

/-- `BackcastEngine.calculate_progress`. -/
def calculate_progress (p : BackcastPlan) : Progress :=
  let total := p.steps.length
  if total = 0 then
    { percent := 0, completed := 0, total := 0, in_progress := 0, blocked := 0,
      not_started := none }
  else
    let completed := (p.steps.filter (fun s => s.status == StepStatus.COMPLETED)).length
    let in_progress := (p.steps.filter (fun s => s.status == StepStatus.IN_PROGRESS)).length
    let blocked := (p.steps.filter (fun s => s.status == StepStatus.BLOCKED)).length
    { percent := round1 (((completed : ℚ) / (total : ℚ)) * 100)
      completed := completed
      total := total
      in_progress := in_progress
      blocked := blocked
      not_started := some ((total : Int) - (completed : Int) - (in_progress : Int) - (blocked : Int)) }

/-! ### Persistence (`save_plan` / `load_plan`)

`save_plan` serializes the plan to a JSON object and writes it under a
file name; `load_plan` reads it back, raising `FileNotFoundError` when
the file is absent and `KeyError`/`ValueError`/`TypeError` when a
required field is missing or an enum tag is unrecognized.  The spec's
error taxonomy groups the latter three as `MalformedDocumentError` and
the former as `NotFoundError`; `LoadError` mirrors that taxonomy and
records the offending field.  Documents are modelled structurally: a
JSON object with the known field names, each possibly absent
(`Option`); nested resource/risk objects are modelled at record
granularity since their internal shape is produced by `asdict`. -/

/-- Names of document fields, used to report which field a
deserialization failure concerns. -/
inductive FieldName where
  | id | title | description | type | priority | status
  | estimated_duration | dependencies | success_criteria
  | constraints | timeline | outcome | steps
  deriving DecidableEq

/-- The spec's error taxonomy for `load`: `NotFoundError` or
`MalformedDocumentError` (missing required field / unrecognized enum tag,
i.e. Python `KeyError`, `TypeError` or `ValueError`). -/
inductive LoadError where
  | notFound
  | malformed (field : FieldName)
  deriving DecidableEq

/-- `StepType(...).value`: the lowercase string tag. -/
def StepType.value : StepType → String
  | .MILESTONE => "milestone"
  | .ACTION => "action"
  | .DECISION => "decision"
  | .DEPENDENCY => "dependency"
  | .RISK_MITIGATION => "risk_mitigation"

/-- The `StepType(tag)` enum constructor: `none` models the `ValueError`
raised on an unrecognized tag. -/
def stepTypeOfTag : String → Option StepType
  | "milestone" => some .MILESTONE
  | "action" => some .ACTION
  | "decision" => some .DECISION
  | "dependency" => some .DEPENDENCY
  | "risk_mitigation" => some .RISK_MITIGATION
  | _ => none

/-- `Priority(...).value`. -/
def Priority.value : Priority → String
  | .CRITICAL => "critical"
  | .HIGH => "high"
  | .MEDIUM => "medium"
  | .LOW => "low"

/-- The `Priority(tag)` enum constructor. -/
def priorityOfTag : String → Option Priority
  | "critical" => some .CRITICAL
  | "high" => some .HIGH
  | "medium" => some .MEDIUM
  | "low" => some .LOW
  | _ => none

/-- `StepStatus(...).value`. -/
def StepStatus.value : StepStatus → String
  | .NOT_STARTED => "not_started"
  | .IN_PROGRESS => "in_progress"
  | .COMPLETED => "completed"
  | .BLOCKED => "blocked"
  | .SKIPPED => "skipped"

/-- The `StepStatus(tag)` enum constructor. -/
def stepStatusOfTag : String → Option StepStatus
  | "not_started" => some .NOT_STARTED
  | "in_progress" => some .IN_PROGRESS
  | "completed" => some .COMPLETED
  | "blocked" => some .BLOCKED
  | "skipped" => some .SKIPPED
  | _ => none

/-- The serialized form of one step: the JSON object written by
`_step_to_dict` (enum fields as string tags), with each key possibly
absent so that `_dict_to_step`'s behavior on incomplete documents can be
stated. -/
structure StepDoc where
  id : Option Nat
  title : Option String
  description : Option String
  type : Option String
  priority : Option String
  status : Option String
  estimated_duration : Option (Option String)
  resources_needed : Option (List Resource)
  dependencies : Option (List Nat)
  success_criteria : Option (List String)
  risks : Option (List Risk)
  notes : Option String
  created_at : Option String
  updated_at : Option String
  completed_at : Option (Option String)
  deriving DecidableEq

/-- `asdict(plan.outcome)` with each key possibly absent on the way back in. -/
structure OutcomeDoc where
  title : Option String
  description : Option String
  success_criteria : Option (List String)
  constraints : Option (List String)
  timeline : Option String
  created_at : Option String
  deriving DecidableEq

/-- The whole plan document `{outcome, steps, created_at, updated_at}`. -/
structure PlanDoc where
  outcome : Option OutcomeDoc
  steps : Option (List StepDoc)
  created_at : Option String
  updated_at : Option String
  deriving DecidableEq

/-- `BackcastEngine._step_to_dict`: `asdict` plus enum-to-tag replacement;
every key is present in the output. -/
def step_to_dict (s : Step) : StepDoc :=
  { id := some s.id
    title := some s.title
    description := some s.description
    type := some s.type.value
    priority := some s.priority.value
    status := some s.status.value
    estimated_duration := some s.estimated_duration
    resources_needed := some s.resources_needed
    dependencies := some s.dependencies
    success_criteria := some s.success_criteria
    risks := some s.risks
    notes := some s.notes
    created_at := some s.created_at
    updated_at := some s.updated_at
    completed_at := some s.completed_at }

/-- `asdict(plan.outcome)`. -/
def outcome_to_doc (o : Outcome) : OutcomeDoc :=
  { title := some o.title
    description := some o.description
    success_criteria := some o.success_criteria
    constraints := some o.constraints
    timeline := some o.timeline
    created_at := some o.created_at }

/-- A required document field: absence is a deserialization failure
(`KeyError` on direct subscripting, `TypeError` on a missing dataclass
argument — both `MalformedDocumentError` in the spec taxonomy). -/
def require (fld : FieldName) : Option α → Except LoadError α
  | some v => Except.ok v
  | none => Except.error (LoadError.malformed fld)

/-- `BackcastEngine._dict_to_step`: enum tags are converted first
(`data['type']` etc. — `KeyError` if absent, `ValueError` if
unrecognized); `resources_needed` and `risks` are read with
`data.get(..., [])` and therefore SILENTLY DEFAULT to `[]` when absent;
the remaining fields are passed to the `Step` constructor, whose
required arguments have no defaults; finally `Step.__post_init__` runs. -/
def dict_to_step (now : String) (d : StepDoc) : Except LoadError Step := do
  let ttag ← require FieldName.type d.type
  let ty ← require FieldName.type (stepTypeOfTag ttag)
  let ptag ← require FieldName.priority d.priority
  let pr ← require FieldName.priority (priorityOfTag ptag)
  let stag ← require FieldName.status d.status
  let st ← require FieldName.status (stepStatusOfTag stag)
  let i ← require FieldName.id d.id
  let ti ← require FieldName.title d.title
  let de ← require FieldName.description d.description
  let ed ← require FieldName.estimated_duration d.estimated_duration
  let deps ← require FieldName.dependencies d.dependencies
  let sc ← require FieldName.success_criteria d.success_criteria
  Except.ok (stepPostInit now
    { id := i
      title := ti
      description := de
      type := ty
      priority := pr
      status := st
      estimated_duration := ed
      resources_needed := d.resources_needed.getD []
      dependencies := deps
      success_criteria := sc
      risks := d.risks.getD []
      notes := d.notes.getD ""
      created_at := d.created_at.getD ""
      updated_at := d.updated_at.getD ""
      completed_at := d.completed_at.getD none })

/-- `Outcome(**data["outcome"])`: every non-defaulted constructor argument
is required; `created_at` defaults to `""`; then `__post_init__` runs. -/
def outcome_of_doc (now : String) (d : OutcomeDoc) : Except LoadError Outcome := do
  let ti ← require FieldName.title d.title
  let de ← require FieldName.description d.description
  let sc ← require FieldName.success_criteria d.success_criteria
  let co ← require FieldName.constraints d.constraints
  let tl ← require FieldName.timeline d.timeline
  Except.ok (outcomePostInit now
    { title := ti
      description := de
      success_criteria := sc
      constraints := co
      timeline := tl
      created_at := d.created_at.getD "" })

/-- The `[self._dict_to_step(s) for s in data["steps"]]` comprehension:
the first failure aborts the whole load. -/
def mapExcept (f : α → Except ε β) : List α → Except ε (List β)
  | [] => Except.ok []
  | a :: as => do
    let b ← f a
    let bs ← mapExcept f as
    Except.ok (b :: bs)

/-- The serialization half of `BackcastEngine.save_plan`. -/
def plan_to_doc (p : BackcastPlan) : PlanDoc :=
  { outcome := some (outcome_to_doc p.outcome)
    steps := some (p.steps.map step_to_dict)
    created_at := some p.created_at
    updated_at := some p.updated_at }

/-- The deserialization half of `BackcastEngine.load_plan`: rebuild the
outcome and each step, then construct a `BackcastPlan` (whose
`__post_init__` refreshes `updated_at`). -/
def load_plan_doc (now : String) (d : PlanDoc) : Except LoadError BackcastPlan := do
  let od ← require FieldName.outcome d.outcome
  let o ← outcome_of_doc now od
  let sds ← require FieldName.steps d.steps
  let steps ← mapExcept (dict_to_step now) sds
  Except.ok (planPostInit now
    { outcome := o
      steps := steps
      created_at := d.created_at.getD ""
      updated_at := d.updated_at.getD "" })

/-- The engine's data directory: named plan documents. -/
abbrev Storage := List (String × PlanDoc)

/-- `BackcastEngine.save_plan`: (over)write the document under `name`. -/
def save_plan (st : Storage) (name : String) (p : BackcastPlan) : Storage :=
  (name, plan_to_doc p) :: st

/-- `BackcastEngine.load_plan`: `FileNotFoundError` (spec: `NotFoundError`)
when no document of that name exists, else deserialize. -/
def load_plan (st : Storage) (name : String) (now : String) :
    Except LoadError BackcastPlan :=
  match st.lookup name with
  | none => Except.error LoadError.notFound
  | some d => load_plan_doc now d

/-! ### Derived / spec-side definitions used to state the claims -/

/-- "Load-then-touch": what `load ∘ save` actually produces — the plan
with every `updated_at` (plan level and step level) reset to the load
time by the `__post_init__` hooks, everything else preserved. -/
def touch_plan (now : String) (p : BackcastPlan) : BackcastPlan :=
  { p with
    updated_at := now
    steps := p.steps.map (fun s => { s with updated_at := now }) }

/-- Termination of the memoized depth recursion on a given start id:
some fuel suffices.  Its negation at a concrete input states that the
Python recursion never returns (unbounded recursion). -/
def calc_terminates (sd : Nat → Option Step) (memo : Memo) (sid : Nat) : Prop :=
  ∃ fuel r, calculate_path_length sd fuel memo sid = some r

/-! ### Concrete fixtures -/

/-- A step with all bookkeeping fields at fixed concrete values. -/
def baseStep (i : Nat) (deps : List Nat) (st : StepStatus) (pr : Priority) : Step :=
  { id := i, title := "s", description := "", type := StepType.ACTION, priority := pr,
    status := st, estimated_duration := none, resources_needed := [], dependencies := deps,
    success_criteria := [], risks := [], notes := "", created_at := "c", updated_at := "u",
    completed_at := none }

def outcome0 : Outcome :=
  { title := "o", description := "d", success_criteria := [], constraints := [],
    timeline := "t", created_at := "c" }

/-- Fixed timestamps and document names used by the concrete instances. -/
def t0 : String := "t0"

def t1 : String := "t1"

def tB : String := "B"

def nm : String := "p"

/-- Cyclic plan: step 1 depends on 2 and step 2 depends on 1. -/
def planC1 : BackcastPlan :=
  { outcome := outcome0,
    steps := [baseStep 1 [2] StepStatus.NOT_STARTED Priority.MEDIUM,
              baseStep 2 [1] StepStatus.NOT_STARTED Priority.MEDIUM],
    created_at := "c", updated_at := "u" }

/-- A completed step with a recorded completion time. -/
def stepC3 : Step :=
  { baseStep 1 [] StepStatus.COMPLETED Priority.MEDIUM with completed_at := some t0 }

def planC3 : BackcastPlan :=
  { outcome := outcome0, steps := [stepC3], created_at := "c", updated_at := "u" }

/-- The status-regression update `status = NOT_STARTED`. -/
def regressUpd : List UpdateField := [UpdateField.status StepStatus.NOT_STARTED]

/-- One step whose only dependency id (99) resolves to no step. -/
def planC4 : BackcastPlan :=
  { outcome := outcome0,
    steps := [baseStep 1 [99] StepStatus.NOT_STARTED Priority.MEDIUM],
    created_at := "c", updated_at := "u" }

def emptyPlan : BackcastPlan :=
  { outcome := outcome0, steps := [], created_at := "c", updated_at := "u" }

/-- A plan none of whose steps is ready (its only step is blocked). -/
def planNoReady : BackcastPlan :=
  { outcome := outcome0,
    steps := [baseStep 1 [] StepStatus.BLOCKED Priority.MEDIUM],
    created_at := "c", updated_at := "u" }

/-- Mixed-priority ready steps for the next-actions witness. -/
def planPrio : BackcastPlan :=
  { outcome := outcome0,
    steps := [baseStep 1 [] StepStatus.NOT_STARTED Priority.LOW,
              baseStep 2 [] StepStatus.NOT_STARTED Priority.CRITICAL,
              baseStep 3 [] StepStatus.NOT_STARTED Priority.LOW,
              baseStep 4 [] StepStatus.NOT_STARTED Priority.HIGH],
    created_at := "c", updated_at := "u" }

/-- Steps 1 and 2 where 1 depends on 2 — used to watch `delete_step 2`
cascade. -/
def planC7 : BackcastPlan :=
  { outcome := outcome0,
    steps := [baseStep 1 [2] StepStatus.NOT_STARTED Priority.MEDIUM,
              baseStep 2 [] StepStatus.NOT_STARTED Priority.MEDIUM],
    created_at := "c", updated_at := "u" }

/-- A plan with a pre-existing dangling dependency on id 99. -/
def planC10 : BackcastPlan :=
  { outcome := outcome0,
    steps := [baseStep 1 [99] StepStatus.NOT_STARTED Priority.MEDIUM],
    created_at := "c", updated_at := "u" }

/-- A step document missing its `risks` key (every other key present). -/
def stepDocC8 : StepDoc := { step_to_dict (baseStep 1 [] StepStatus.NOT_STARTED Priority.MEDIUM) with risks := none }

def storeC8 : Storage :=
  [(nm, { outcome := some (outcome_to_doc outcome0)
          steps := some [stepDocC8]
          created_at := some "c"
          updated_at := some "u" })]

/-- An update list mixing a recognized change with an unrecognized key. -/
def mixedUpd : List UpdateField :=
  [UpdateField.unknownField "frobnicate", UpdateField.title t1]

/-- A plan document holding a well-formed outcome and a single step
document — the vehicle for exhibiting per-field step deserialization
failures through `load_plan`. -/
def singleStepDoc (o : Outcome) (d : StepDoc) : PlanDoc :=
  { outcome := some (outcome_to_doc o)
    steps := some [d]
    created_at := some "c"
    updated_at := some "u" }

/-- A plan document holding an arbitrary outcome document and no steps —
the vehicle for exhibiting outcome-level deserialization failures
through `load_plan`. -/
def outcomeOnlyDoc (od : OutcomeDoc) : PlanDoc :=
  { outcome := some od
    steps := some []
    created_at := some "c"
    updated_at := some "u" }

/-- A plan document whose top-level `outcome` key is absent. -/
def noOutcomeDoc : PlanDoc :=
  { outcome := none
    steps := some []
    created_at := none
    updated_at := none }

/-- A plan document whose top-level `steps` key is absent. -/
def noStepsDoc (o : Outcome) : PlanDoc :=
  { outcome := some (outcome_to_doc o)
    steps := none
    created_at := none
    updated_at := none }

/-! ## Theorems -/

/-- `path_lengths` fails as soon as the computation for the first step
fails. -/
theorem path_lengths_cons_none {sd : Nat → Option Step} {fuel : Nat} {s : Step}
    {ss : List Step} {memo : Memo}
    (h : calculate_path_length sd fuel memo s.id = none) :
    path_lengths sd fuel (s :: ss) memo = none := by
  simp only [path_lengths, h]

/-- `get_critical_path` fails when the path-length pass fails. -/
theorem get_critical_path_none {fuel : Nat} {p : BackcastPlan}
    (h : path_lengths (step_dict p) fuel p.steps [] = none) :
    get_critical_path fuel p = none := by
  unfold get_critical_path
  rw [h]

/-- On the 2-cycle `1 ↔ 2` the depth recursion never returns, at either
entry point, for any recursion budget: the memo never acquires an entry
for a step on the cycle (it is written only after the descent returns),
so each level recurses into the other step with one budget unit less. -/
theorem calc_cyclic_diverges (fuel : Nat) :
    calculate_path_length (step_dict planC1) fuel [] 1 = none ∧
    calculate_path_length (step_dict planC1) fuel [] 2 = none := by
  induction fuel with
  | zero => exact ⟨rfl, rfl⟩
  | succ n ih =>
    constructor
    · have e : calculate_path_length (step_dict planC1) (n + 1) [] 1 =
          (match calcDepsWith (calculate_path_length (step_dict planC1) n) [2] [] 0 with
           | none => none
           | some (m, memo1) => some (m + 1, (1, m + 1) :: memo1)) := rfl
      rw [e]
      have e2 : calcDepsWith (calculate_path_length (step_dict planC1) n) [2] [] 0 =
          (match calculate_path_length (step_dict planC1) n [] 2 with
           | none => none
           | some (v, memo1) =>
               calcDepsWith (calculate_path_length (step_dict planC1) n) [] memo1 (max 0 v)) := rfl
      rw [e2, ih.2]
    · have e : calculate_path_length (step_dict planC1) (n + 1) [] 2 =
          (match calcDepsWith (calculate_path_length (step_dict planC1) n) [1] [] 0 with
           | none => none
           | some (m, memo1) => some (m + 1, (2, m + 1) :: memo1)) := rfl
      rw [e]
      have e2 : calcDepsWith (calculate_path_length (step_dict planC1) n) [1] [] 0 =
          (match calculate_path_length (step_dict planC1) n [] 1 with
           | none => none
           | some (v, memo1) =>
               calcDepsWith (calculate_path_length (step_dict planC1) n) [] memo1 (max 0 v)) := rfl
      rw [e2, ih.1]

/-- C1: on a plan whose dependency relation contains a cycle (step 1
depends on 2 and 2 depends on 1), `get_critical_path` raises no
`CyclicDependencyError` — no such error exists anywhere in the code —
and instead the memoized recursion recurses unboundedly: for every
recursion budget the computation fails to return. -/
theorem c1_cyclic_critical_path_diverges (fuel : Nat) :
    get_critical_path fuel planC1 = none ∧ ¬ calc_terminates (step_dict planC1) [] 1 := by
  constructor
  · cases fuel with
    | zero => rfl
    | succ n =>
      exact get_critical_path_none (path_lengths_cons_none (calc_cyclic_diverges (n + 1)).1)
  · rintro ⟨f, r, hr⟩
    rw [(calc_cyclic_diverges f).1] at hr
    exact Option.noConfusion hr

/-- C5: on a plan with zero steps, `calculate_progress` returns
`percent = 0` and zero `completed`/`total`/`in_progress`/`blocked`, but
the returned mapping has NO `not_started` entry at all (`none`), rather
than the `not_started = 0` the claim requires. -/
theorem c5_empty_progress_missing_not_started :
    calculate_progress emptyPlan =
      { percent := 0, completed := 0, total := 0, in_progress := 0, blocked := 0,
        not_started := none } ∧
    (calculate_progress emptyPlan).not_started ≠ some 0 := by
  exact ⟨rfl, by decide⟩

/-- C2 counterexample: saving `planC3` (whose plan- and step-level
`updated_at` is `"u"`) and loading it back at a later time `"B"` does
not return the original plan — the `__post_init__` hooks reset every
`updated_at` to the load time. -/
theorem c2_roundtrip_counterexample :
    load_plan (save_plan [] nm planC3) nm tB ≠ Except.ok planC3 := by
  intro h
  have he : load_plan (save_plan [] nm planC3) nm tB =
      Except.ok (touch_plan tB planC3) := rfl
  rw [he] at h
  exact absurd (Except.ok.inj h) (by decide)

/-- C3 counterexample: updating the completed step `stepC3` (with
`completed_at = some t0`) to `status = NOT_STARTED` — a regression away
from `completed` — leaves `completed_at` at `some t0`; it is NOT cleared
back to `none` as the claim requires. -/
theorem c3_regression_counterexample :
    (update_step planC3 1 regressUpd t1).steps.map (fun s => s.completed_at)
      = [some t0] ∧ (some t0 : Option String) ≠ none := by
  exact ⟨rfl, by decide⟩

/-- C4 counterexample: in `planC4` step 1's only dependency id 99
resolves to no step; the code assigns the unknown id depth 1 (not the
depth 0 the claim states), so step 1 gets depth 2 instead of the
claimed 1. -/
theorem c4_unknown_dep_depth_counterexample :
    (calculate_path_length (step_dict planC4) 10 [] 1).map Prod.fst = some 2 ∧
    (2 : Nat) ≠ 1 := by
  exact ⟨rfl, by decide⟩

/-- C8 counterexample: a step document from which the required `risks`
field is absent does NOT make `load_plan` fail with
`MalformedDocumentError`; the loader silently defaults the field to the
empty list and succeeds. -/
theorem c8_missing_risks_counterexample :
    stepDocC8.risks = none ∧
    load_plan storeC8 nm tB =
      Except.ok (touch_plan tB
        { outcome := outcome0
          steps := [baseStep 1 [] StepStatus.NOT_STARTED Priority.MEDIUM]
          created_at := "c", updated_at := "u" }) := by
  exact ⟨rfl, rfl⟩

/-- C7: deleting a step id removes every step with that id, strips the id
from every surviving step's dependency list (no dangling reference
survives), keeps every other step (with its dependencies so cleaned),
and refreshes `plan.updated_at`. -/
theorem c7_delete_step_cascades (p : BackcastPlan) (sid : Nat) (now : String) :
    (∀ s ∈ (delete_step p sid now).steps, s.id ≠ sid ∧ sid ∉ s.dependencies) ∧
    (∀ s ∈ p.steps, s.id ≠ sid →
      { s with dependencies := s.dependencies.filter (fun d => d != sid) } ∈
        (delete_step p sid now).steps) ∧
    (delete_step p sid now).updated_at = now := by
  refine ⟨?_, ?_, rfl⟩
  · intro s hs
    simp only [delete_step, List.mem_map, List.mem_filter] at hs
    obtain ⟨t, ⟨_, hid⟩, rfl⟩ := hs
    refine ⟨by simpa using hid, ?_⟩
    intro hd
    have := (List.mem_filter.mp hd).2
    simp at this
  · intro s hs hne
    simp only [delete_step, List.mem_map, List.mem_filter]
    exact ⟨s, ⟨hs, by simpa using hne⟩, rfl⟩

/-- C10: deleting an id that names no step raises no error, keeps every
step (so the step set is unchanged), still strips that id from every
step's dependency list (cleaning pre-existing dangling references), and
refreshes `plan.updated_at`. -/
theorem c10_delete_missing_id (p : BackcastPlan) (sid : Nat) (now : String)
    (h : ∀ s ∈ p.steps, s.id ≠ sid) :
    delete_step p sid now =
      { p with
        steps := p.steps.map
          (fun s => { s with dependencies := s.dependencies.filter (fun d => d != sid) })
        updated_at := now } := by
  have hf : p.steps.filter (fun s => s.id != sid) = p.steps :=
    List.filter_eq_self.mpr (fun a ha => by simpa using h a ha)
  simp only [delete_step, hf]

/-- Witness for C10 at a concrete input: `planC10`'s only step has id 1
and a dangling dependency on 99; deleting 99 keeps the step, drops the
dangling dependency, and touches `updated_at`. -/
theorem c10_delete_missing_id_witness :
    delete_step planC10 99 t1 =
      { planC10 with
        steps := planC10.steps.map
          (fun s => { s with dependencies := s.dependencies.filter (fun d => d != 99) })
        updated_at := t1 } :=
  c10_delete_missing_id planC10 99 t1 (by decide)

/-- Witness for C7 at a concrete input: deleting step 2 of `planC7`. -/
theorem c7_delete_step_cascades_witness :
    (∀ s ∈ (delete_step planC7 2 t1).steps, s.id ≠ 2 ∧ 2 ∉ s.dependencies) ∧
    ({ baseStep 1 [2] StepStatus.NOT_STARTED Priority.MEDIUM with
        dependencies := [2].filter (fun d => d != 2) } ∈ (delete_step planC7 2 t1).steps) ∧
    (delete_step planC7 2 t1).updated_at = t1 := by
  refine ⟨(c7_delete_step_cascades planC7 2 t1).1, ?_, (c7_delete_step_cascades planC7 2 t1).2.2⟩
  exact (c7_delete_step_cascades planC7 2 t1).2.1
    (baseStep 1 [2] StepStatus.NOT_STARTED Priority.MEDIUM) (by decide) (by decide)

/-- Applying an unrecognized key is a no-op, so dropping the
unrecognized entries does not change the `setattr` fold. -/
theorem foldl_applyField_filter (us : List UpdateField) :
    ∀ s : Step, (us.filter UpdateField.isKnown).foldl applyField s = us.foldl applyField s := by
  induction us with
  | nil => intro s; rfl
  | cons u us ih =>
    intro s
    cases u <;> simp [List.filter_cons, UpdateField.isKnown, applyField, ih]

/-- `updates.get('status')` is unaffected by dropping unrecognized keys. -/
theorem statusEntry_foldl_filter (us : List UpdateField) :
    ∀ acc, (us.filter UpdateField.isKnown).foldl statusEntry acc = us.foldl statusEntry acc := by
  induction us with
  | nil => intro acc; rfl
  | cons u us ih =>
    intro acc
    cases u <;> simp [List.filter_cons, UpdateField.isKnown, statusEntry, ih]

/-- The per-step body of `update_step` ignores unrecognized keys. -/
theorem apply_updates_filter (us : List UpdateField) (now : String) (s : Step) :
    apply_updates (us.filter UpdateField.isKnown) now s = apply_updates us now s := by
  unfold apply_updates getStatusUpdate
  rw [foldl_applyField_filter, statusEntry_foldl_filter]

/-- `update_first` on a decomposed list: steps before the first match are
untouched, the first matching step gets the update body, the rest are
untouched. -/
theorem update_first_append (sid : Nat) (us : List UpdateField) (now : String)
    (s : Step) (post : List Step) :
    ∀ pre : List Step, (∀ t ∈ pre, t.id ≠ sid) → s.id = sid →
      update_first sid us now (pre ++ s :: post) = pre ++ apply_updates us now s :: post := by
  intro pre
  induction pre with
  | nil =>
    intro _ hs
    simp [update_first, hs]
  | cons t pre ih =>
    intro hpre hs
    have ht : t.id ≠ sid := hpre t (List.mem_cons_self t pre)
    simp only [List.cons_append, update_first, if_neg ht]
    rw [List.append_eq, ih (fun x hx => hpre x (List.mem_cons_of_mem t hx)) hs]

/-- `update_step` always stamps the updated step's `updated_at`,
whatever the update list contains. -/
theorem apply_updates_updated_at (us : List UpdateField) (now : String) (s : Step) :
    (apply_updates us now s).updated_at = now := by
  unfold apply_updates
  split <;> rfl

/-- If no entry of the update list names `completed_at`, the `setattr`
fold leaves `completed_at` untouched. -/
theorem foldl_completed_at (us : List UpdateField) (h : hasCompletedAtUpdate us = false) :
    ∀ s : Step, (us.foldl applyField s).completed_at = s.completed_at := by
  induction us with
  | nil => intro s; rfl
  | cons u us ih =>
    have hc : hasCompletedAtUpdate us = false := by
      unfold hasCompletedAtUpdate at h ⊢
      simp only [List.any_cons, Bool.or_eq_false_iff] at h
      exact h.2
    intro s
    cases u with
    | completed_at v =>
      exfalso
      unfold hasCompletedAtUpdate at h
      simp [List.any_cons] at h
    | _ => simp only [List.foldl_cons, applyField, ih hc]

/-- C9: on an existing step id, `update_step` silently ignores every
field change whose key is not a `Step` attribute — the result is the
same as if the unrecognized entries had been dropped — while still
applying the recognized changes to the first matching step and
refreshing that step's `updated_at`. -/
theorem c9_update_step_ignores_unknown (p : BackcastPlan) (sid : Nat)
    (us : List UpdateField) (now : String) (pre : List Step) (s : Step) (post : List Step)
    (hsteps : p.steps = pre ++ s :: post) (hpre : ∀ t ∈ pre, t.id ≠ sid)
    (hs : s.id = sid) :
    update_step p sid us now = update_step p sid (us.filter UpdateField.isKnown) now ∧
    (update_step p sid us now).steps = pre ++ apply_updates us now s :: post ∧
    (apply_updates us now s).updated_at = now := by
  refine ⟨?_, ?_, apply_updates_updated_at us now s⟩
  · unfold update_step
    rw [hsteps, update_first_append sid us now s post pre hpre hs,
      update_first_append sid (us.filter UpdateField.isKnown) now s post pre hpre hs,
      apply_updates_filter]
  · unfold update_step
    rw [hsteps, update_first_append sid us now s post pre hpre hs]

/-- Witness for C9 at a concrete input: updating step 1 of `planC7` with
a mix of an unrecognized key and a title change. -/
theorem c9_update_step_ignores_unknown_witness :
    update_step planC7 1 mixedUpd t1 =
      update_step planC7 1 (mixedUpd.filter UpdateField.isKnown) t1 ∧
    (update_step planC7 1 mixedUpd t1).steps =
      [] ++ apply_updates mixedUpd t1 (baseStep 1 [2] StepStatus.NOT_STARTED Priority.MEDIUM)
        :: [baseStep 2 [] StepStatus.NOT_STARTED Priority.MEDIUM] ∧
    (apply_updates mixedUpd t1 (baseStep 1 [2] StepStatus.NOT_STARTED Priority.MEDIUM)).updated_at
      = t1 :=
  c9_update_step_ignores_unknown planC7 1 mixedUpd t1 []
    (baseStep 1 [2] StepStatus.NOT_STARTED Priority.MEDIUM)
    [baseStep 2 [] StepStatus.NOT_STARTED Priority.MEDIUM]
    rfl (by decide) rfl

/-- C3 (amended): `update_step` on an existing step id sets the step's
`completed_at` to now exactly when the change sets `status = completed`;
but when the change moves `status` away from `completed` (and carries no
explicit `completed_at` entry), `completed_at` is left unchanged — it is
NOT cleared back to `none`. -/
theorem c3_completed_at_amended (p : BackcastPlan) (sid : Nat)
    (us : List UpdateField) (now : String) (pre : List Step) (s : Step) (post : List Step)
    (hsteps : p.steps = pre ++ s :: post) (hpre : ∀ t ∈ pre, t.id ≠ sid)
    (hs : s.id = sid) :
    (update_step p sid us now).steps = pre ++ apply_updates us now s :: post ∧
    (getStatusUpdate us = some StepStatus.COMPLETED →
      (apply_updates us now s).completed_at = some now) ∧
    (getStatusUpdate us ≠ some StepStatus.COMPLETED → hasCompletedAtUpdate us = false →
      (apply_updates us now s).completed_at = s.completed_at) := by
  refine ⟨?_, ?_, ?_⟩
  · unfold update_step
    rw [hsteps, update_first_append sid us now s post pre hpre hs]
  · intro h
    unfold apply_updates
    rw [if_pos h]
  · intro h hc
    unfold apply_updates
    rw [if_neg h]
    exact foldl_completed_at us hc s

/-- Witness for C3's amended claim at a concrete input: regressing
`stepC3` from `completed` to `not_started` leaves `completed_at = some t0`. -/
theorem c3_completed_at_amended_witness :
    (update_step planC3 1 regressUpd t1).steps = [] ++ apply_updates regressUpd t1 stepC3 :: [] ∧
    (apply_updates regressUpd t1 stepC3).completed_at = stepC3.completed_at :=
  ⟨(c3_completed_at_amended planC3 1 regressUpd t1 [] stepC3 [] rfl (by decide) rfl).1,
   (c3_completed_at_amended planC3 1 regressUpd t1 [] stepC3 [] rfl (by decide) rfl).2.2
     (by decide) rfl⟩

/-- The depth recursion on an id that resolves to no step returns 1
immediately (memo hit of 1, or the `not step` base case), preserving the
"all memo values are 1" invariant. -/
theorem calc_unknown_id {sd : Nat → Option Step} {fuel : Nat} {memo : Memo} {d : Nat}
    (hd : sd d = none) (hinv : ∀ x v, memo.lookup x = some v → v = 1) :
    ∃ memo1, calculate_path_length sd (fuel + 1) memo d = some (1, memo1) ∧
      (∀ x v, memo1.lookup x = some v → v = 1) := by
  cases hm : memo.lookup d with
  | some v =>
    refine ⟨memo, ?_, hinv⟩
    have hv := hinv d v hm
    subst hv
    simp only [calculate_path_length, hm]
  | none =>
    refine ⟨(d, 1) :: memo, ?_, ?_⟩
    · simp only [calculate_path_length, hm, hd]
    · intro x v hx
      simp only [List.lookup] at hx
      split at hx
      · exact (Option.some.inj hx).symm
      · exact hinv x v hx

/-- Folding the dependency maximum over a list of unknown ids: every
recursive call yields 1, so the running maximum becomes `max acc 1`
(on a nonempty list), and the memo keeps only value-1 entries. -/
theorem calcDeps_all_unknown {sd : Nat → Option Step} (fuel : Nat) :
    ∀ (ds : List Nat) (memo : Memo) (acc : Nat),
      (∀ d ∈ ds, sd d = none) → (∀ x v, memo.lookup x = some v → v = 1) →
      ∃ memo2,
        calcDepsWith (calculate_path_length sd (fuel + 1)) ds memo acc =
          some ((if ds.isEmpty then acc else max acc 1), memo2) ∧
        (∀ x v, memo2.lookup x = some v → v = 1) := by
  intro ds
  induction ds with
  | nil => exact fun memo acc _ hinv => ⟨memo, rfl, hinv⟩
  | cons d ds ih =>
    intro memo acc hds hinv
    obtain ⟨memo1, h1, hinv1⟩ :=
      @calc_unknown_id sd fuel memo d (hds d (List.mem_cons_self d ds)) hinv
    obtain ⟨memo2, h2, hinv2⟩ :=
      ih memo1 (max acc 1) (fun x hx => hds x (List.mem_cons_of_mem d hx)) hinv1
    refine ⟨memo2, ?_, hinv2⟩
    simp only [calcDepsWith, h1, h2, List.isEmpty_cons]
    cases ds with
    | nil => simp
    | cons e es => simp [max_assoc]

/-- Unfolding of the depth recursion on an uncached id with a nonempty
dependency list. -/
theorem calc_succ_with_deps {sd : Nat → Option Step} {fuel : Nat} {memo : Memo}
    {sid : Nat} {st : Step} (hm : memo.lookup sid = none) (hsd : sd sid = some st)
    (hne : st.dependencies.isEmpty = false) :
    calculate_path_length sd (fuel + 1) memo sid =
      match calcDepsWith (calculate_path_length sd fuel) st.dependencies memo 0 with
      | none => none
      | some (m, memo1) => some (m + 1, (sid, m + 1) :: memo1) := by
  simp only [calculate_path_length, hm, hsd, hne, Bool.false_eq_true, if_false]

/-- C4 (amended): the critical-path computation is total over unknown
dependency ids and over the empty plan, but an unknown id is treated as
a depth-1 leaf (not as contributing 0): an id that resolves to no step
gets path length 1, so a step whose dependencies are all unknown gets
depth 2 (the claim said 1); a plan with no steps yields the empty
critical path without failing. -/
theorem c4_critical_path_totality_amended :
    (∀ (p : BackcastPlan) (fuel : Nat), p.steps = [] → get_critical_path fuel p = some []) ∧
    (∀ (p : BackcastPlan) (fuel : Nat) (memo : Memo) (sid : Nat),
      memo.lookup sid = none → step_dict p sid = none →
      calculate_path_length (step_dict p) (fuel + 1) memo sid = some (1, (sid, 1) :: memo)) ∧
    (∀ (p : BackcastPlan) (fuel : Nat) (sid : Nat) (st : Step),
      step_dict p sid = some st → st.dependencies ≠ [] →
      (∀ d ∈ st.dependencies, step_dict p d = none) →
      (calculate_path_length (step_dict p) (fuel + 2) [] sid).map Prod.fst = some 2) := by
  refine ⟨?_, ?_, ?_⟩
  · intro p fuel h
    unfold get_critical_path
    rw [h]
    rfl
  · intro p fuel memo sid hm hsd
    simp only [calculate_path_length, hm, hsd]
  · intro p fuel sid st hsd hne hdeps
    have hne' : st.dependencies.isEmpty = false := by
      cases hd : st.dependencies with
      | nil => exact absurd hd hne
      | cons d ds => rfl
    have hinv0 : ∀ x v, ([] : Memo).lookup x = some v → v = 1 := by
      intro x v hx
      simp [List.lookup] at hx
    obtain ⟨memo2, hcd, _⟩ :=
      calcDeps_all_unknown fuel st.dependencies [] 0 hdeps hinv0
    rw [hne'] at hcd
    simp only [Bool.false_eq_true, if_false] at hcd
    have hf : fuel + 2 = (fuel + 1) + 1 := rfl
    rw [hf, calc_succ_with_deps (show List.lookup sid ([] : Memo) = none from rfl) hsd hne',
      hcd]
    rfl

/-- The Bool readiness test of `get_next_actions`, in propositional
form: status permits starting and every dependency id belongs to a
completed step (an id that belongs to no step is never in
`completed_ids`, so it blocks readiness — fail-closed). -/
theorem is_ready_iff (p : BackcastPlan) (s : Step) :
    is_ready p s = true ↔
      (s.status = StepStatus.NOT_STARTED ∨ s.status = StepStatus.IN_PROGRESS) ∧
      ∀ d ∈ s.dependencies, ∃ t, t ∈ p.steps ∧ t.id = d ∧ t.status = StepStatus.COMPLETED := by
  unfold is_ready completed_ids
  simp only [Bool.and_eq_true, Bool.or_eq_true, beq_iff_eq, List.all_eq_true,
    List.contains, List.elem_iff, decide_eq_true_eq, List.mem_map, List.mem_filter]
  constructor
  · rintro ⟨hst, hdeps⟩
    refine ⟨hst, ?_⟩
    intro d hd
    obtain ⟨t, ⟨ht, hts⟩, hid⟩ := hdeps d hd
    exact ⟨t, ht, hid, hts⟩
  · rintro ⟨hst, hdeps⟩
    refine ⟨hst, ?_⟩
    intro d hd
    obtain ⟨t, ht, hid, hts⟩ := hdeps d hd
    exact ⟨t, ⟨ht, hts⟩, hid⟩

/-- C6: `get_next_actions` returns exactly the steps that are ready —
status in `{not_started, in_progress}` and every dependency id owned by
a completed step, unknown ids blocking (fail-closed) — sorted by
priority ascending (critical first, encoded by `priority_order`), with
ties keeping their original relative order (per-priority sublists are
preserved verbatim), and the empty sequence when no step is ready. -/
theorem c6_next_actions_spec (p : BackcastPlan) :
    (get_next_actions p).Perm (p.steps.filter (is_ready p)) ∧
    (∀ s : Step, s ∈ get_next_actions p ↔ s ∈ p.steps ∧
      ((s.status = StepStatus.NOT_STARTED ∨ s.status = StepStatus.IN_PROGRESS) ∧
       ∀ d ∈ s.dependencies, ∃ t, t ∈ p.steps ∧ t.id = d ∧ t.status = StepStatus.COMPLETED)) ∧
    List.Sorted stepLE (get_next_actions p) ∧
    (∀ q : Priority, (get_next_actions p).filter (fun s => s.priority == q) =
      (p.steps.filter (is_ready p)).filter (fun s => s.priority == q)) ∧
    (p.steps.filter (is_ready p) = [] → get_next_actions p = []) := by
  have hperm : (get_next_actions p).Perm (p.steps.filter (is_ready p)) :=
    List.perm_insertionSort stepLE _
  refine ⟨hperm, ?_, List.sorted_insertionSort stepLE _, ?_, ?_⟩
  · intro s
    rw [hperm.mem_iff, List.mem_filter, is_ready_iff]
  · intro q
    set fil := (p.steps.filter (is_ready p)).filter (fun s => s.priority == q) with hfil
    have hpw : fil.Pairwise stepLE := by
      apply List.pairwise_of_forall_mem_list
      intro a ha b hb
      have ha' : a.priority = q := by
        have := (List.mem_filter.mp ha).2
        simpa using this
      have hb' : b.priority = q := by
        have := (List.mem_filter.mp hb).2
        simpa using this
      unfold stepLE
      rw [ha', hb']
    have hsub : List.Sublist fil (get_next_actions p) :=
      List.sublist_insertionSort hpw (List.filter_sublist _)
    have hfq : fil.filter (fun s => s.priority == q) = fil :=
      List.filter_eq_self.mpr (fun a ha => (List.mem_filter.mp ha).2)
    have hsub2 : List.Sublist fil ((get_next_actions p).filter (fun s => s.priority == q)) := by
      have h2 := List.Sublist.filter (fun s => s.priority == q) hsub
      rwa [hfq] at h2
    have hlen : ((get_next_actions p).filter (fun s => s.priority == q)).length = fil.length :=
      (hperm.filter _).length_eq
    exact (hsub2.eq_of_length hlen.symm).symm
  · intro h
    unfold get_next_actions
    rw [h]
    rfl

/-- Witness for C6 at a concrete input: `planNoReady`'s only step is
blocked, so no step is ready and the result is empty. -/
theorem c6_next_actions_spec_witness : get_next_actions planNoReady = [] :=
  (c6_next_actions_spec planNoReady).2.2.2.2 (by decide)

/-- `Except` bind on a success, stated for rewriting. -/
theorem exceptBind_ok (a : α) (f : α → Except ε β) :
    (Except.ok a : Except ε α) >>= f = f a := rfl

/-- `Except` bind on a failure, stated for rewriting. -/
theorem exceptBind_error (e : ε) (f : α → Except ε β) :
    (Except.error e : Except ε α) >>= f = Except.error e := rfl

/-- Enum round trip: tag-of-value parses back to the value. -/
theorem stepTypeOfTag_value (ty : StepType) : stepTypeOfTag ty.value = some ty := by
  cases ty <;> rfl

theorem priorityOfTag_value (pr : Priority) : priorityOfTag pr.value = some pr := by
  cases pr <;> rfl

theorem stepStatusOfTag_value (st : StepStatus) : stepStatusOfTag st.value = some st := by
  cases st <;> rfl

/-- Deserializing a serialized step succeeds and yields the original step
passed through `Step.__post_init__`. -/
theorem dict_to_step_roundtrip (now : String) (s : Step) :
    dict_to_step now (step_to_dict s) = Except.ok (stepPostInit now s) := by
  cases s with
  | mk i ti de ty pr st ed rn deps sc rk no ca ua coa =>
    cases ty <;> cases pr <;> cases st <;> rfl

/-- On a record with a nonempty creation timestamp, `__post_init__` only
refreshes `updated_at`. -/
theorem stepPostInit_of_created_ne (now : String) (s : Step) (h : s.created_at ≠ "") :
    stepPostInit now s = { s with updated_at := now } := by
  unfold stepPostInit
  rw [if_neg h]

theorem outcomePostInit_of_created_ne (now : String) (o : Outcome) (h : o.created_at ≠ "") :
    outcomePostInit now o = o := by
  unfold outcomePostInit
  rw [if_neg h]

theorem outcome_of_doc_roundtrip (now : String) (o : Outcome) :
    outcome_of_doc now (outcome_to_doc o) = Except.ok (outcomePostInit now o) := by
  cases o
  rfl

theorem mapExcept_roundtrip (now : String) (ss : List Step) :
    mapExcept (dict_to_step now) (ss.map step_to_dict) = Except.ok (ss.map (stepPostInit now)) := by
  induction ss with
  | nil => rfl
  | cons s ss ih =>
    simp only [List.map_cons, mapExcept, dict_to_step_roundtrip, ih]
    rfl

/-- C2 (amended): loading a plan right after saving it reproduces every
field — enum tags, empty lists, nested resources and risks, `created_at`
and `completed_at` at plan and step level — EXCEPT `updated_at`: the
dataclass `__post_init__` hooks reset plan-level and step-level
`updated_at` to the load time (the `created_at ≠ ""` hypotheses hold for
every plan the engine constructs, since construction stamps empty
creation fields). -/
theorem c2_roundtrip_amended (st : Storage) (name : String) (p : BackcastPlan) (now : String)
    (ho : p.outcome.created_at ≠ "") (hp : p.created_at ≠ "")
    (hs : ∀ s ∈ p.steps, s.created_at ≠ "") :
    load_plan (save_plan st name p) name now = Except.ok (touch_plan now p) := by
  unfold save_plan load_plan
  have hl : List.lookup name ((name, plan_to_doc p) :: st) = some (plan_to_doc p) := by
    simp [List.lookup]
  rw [hl]
  unfold load_plan_doc plan_to_doc
  simp only [require, exceptBind_ok, outcome_of_doc_roundtrip, mapExcept_roundtrip,
    outcomePostInit_of_created_ne now p.outcome ho]
  unfold planPostInit touch_plan
  simp only [Option.getD_some]
  rw [if_neg hp]
  have hsteps : p.steps.map (stepPostInit now) =
      p.steps.map (fun s => { s with updated_at := now }) :=
    List.map_congr_left (fun s hsm => stepPostInit_of_created_ne now s (hs s hsm))
  rw [hsteps]

/-- Witness for C2's amended claim at a concrete input: `planC3` saved
under `nm` and reloaded at time `tB`. -/
theorem c2_roundtrip_amended_witness :
    load_plan (save_plan [] nm planC3) nm tB = Except.ok (touch_plan tB planC3) :=
  c2_roundtrip_amended [] nm planC3 tB (by decide) (by decide) (by decide)

/-- A singleton directory resolves its one name to its one document. -/
theorem load_plan_singleton (name now : String) (d : PlanDoc) :
    load_plan [(name, d)] name now = load_plan_doc now d := by
  unfold load_plan
  have hl : List.lookup name [(name, d)] = some d := by
    simp [List.lookup]
  rw [hl]

/-- A step-document deserialization failure propagates through
`load_plan` (the outcome half of the document being well-formed). -/
theorem load_plan_single_step_error (name now : String) (o : Outcome) (d : StepDoc)
    (e : LoadError) (hd : dict_to_step now d = Except.error e) :
    load_plan [(name, singleStepDoc o d)] name now = Except.error e := by
  rw [load_plan_singleton]
  unfold singleStepDoc load_plan_doc
  simp only [require, exceptBind_ok, outcome_of_doc_roundtrip, mapExcept, hd,
    exceptBind_error]

/-- An outcome-document deserialization failure propagates through
`load_plan`. -/
theorem load_plan_outcome_error (name now : String) (od : OutcomeDoc) (e : LoadError)
    (ho : outcome_of_doc now od = Except.error e) :
    load_plan [(name, outcomeOnlyDoc od)] name now = Except.error e := by
  rw [load_plan_singleton]
  unfold outcomeOnlyDoc load_plan_doc
  simp only [require, exceptBind_ok, ho, exceptBind_error]

/-- C8 (amended): `load_plan` fails with `NotFoundError` when the named
document is absent, and with `MalformedDocumentError` when a
`type`/`priority`/`status` enum tag is unrecognized or a required field
is missing — required meaning the fields without dataclass defaults:
top-level `outcome` and `steps`, outcome-level `title`/`description`/
`success_criteria`/`constraints`/`timeline`, and step-level `id`/`title`/
`description`/`type`/`priority`/`status`/`estimated_duration`/
`dependencies`/`success_criteria` — EXCEPT `resources_needed` and
`risks`, which, though they have no dataclass default either, silently
default to the empty list when absent instead of failing; on success the
loader reconstructs enum fields from their string tags and the nested
resource/risk records.  Every failure is exhibited through `load_plan`
itself on a document differing from a serialized step/outcome in exactly
the affected field. -/
theorem c8_load_failure_modes_amended :
    (∀ (st : Storage) (name now : String), st.lookup name = none →
      load_plan st name now = Except.error LoadError.notFound) ∧
    (∀ (name now : String) (o : Outcome) (s : Step) (tag : String), stepTypeOfTag tag = none →
      load_plan [(name, singleStepDoc o { step_to_dict s with type := some tag })] name now =
        Except.error (LoadError.malformed FieldName.type)) ∧
    (∀ (name now : String) (o : Outcome) (s : Step) (tag : String), priorityOfTag tag = none →
      load_plan [(name, singleStepDoc o { step_to_dict s with priority := some tag })] name now =
        Except.error (LoadError.malformed FieldName.priority)) ∧
    (∀ (name now : String) (o : Outcome) (s : Step) (tag : String), stepStatusOfTag tag = none →
      load_plan [(name, singleStepDoc o { step_to_dict s with status := some tag })] name now =
        Except.error (LoadError.malformed FieldName.status)) ∧
    (∀ (name now : String),
      load_plan [(name, noOutcomeDoc)] name now =
        Except.error (LoadError.malformed FieldName.outcome)) ∧
    (∀ (name now : String) (o : Outcome),
      load_plan [(name, noStepsDoc o)] name now =
        Except.error (LoadError.malformed FieldName.steps)) ∧
    (∀ (name now : String) (o : Outcome),
      load_plan [(name, outcomeOnlyDoc { outcome_to_doc o with title := none })] name now =
        Except.error (LoadError.malformed FieldName.title)) ∧
    (∀ (name now : String) (o : Outcome),
      load_plan [(name, outcomeOnlyDoc { outcome_to_doc o with description := none })] name now =
        Except.error (LoadError.malformed FieldName.description)) ∧
    (∀ (name now : String) (o : Outcome),
      load_plan [(name, outcomeOnlyDoc { outcome_to_doc o with success_criteria := none })]
          name now = Except.error (LoadError.malformed FieldName.success_criteria)) ∧
    (∀ (name now : String) (o : Outcome),
      load_plan [(name, outcomeOnlyDoc { outcome_to_doc o with constraints := none })] name now =
        Except.error (LoadError.malformed FieldName.constraints)) ∧
    (∀ (name now : String) (o : Outcome),
      load_plan [(name, outcomeOnlyDoc { outcome_to_doc o with timeline := none })] name now =
        Except.error (LoadError.malformed FieldName.timeline)) ∧
    (∀ (name now : String) (o : Outcome) (s : Step),
      load_plan [(name, singleStepDoc o { step_to_dict s with id := none })] name now =
        Except.error (LoadError.malformed FieldName.id)) ∧
    (∀ (name now : String) (o : Outcome) (s : Step),
      load_plan [(name, singleStepDoc o { step_to_dict s with title := none })] name now =
        Except.error (LoadError.malformed FieldName.title)) ∧
    (∀ (name now : String) (o : Outcome) (s : Step),
      load_plan [(name, singleStepDoc o { step_to_dict s with description := none })] name now =
        Except.error (LoadError.malformed FieldName.description)) ∧
    (∀ (name now : String) (o : Outcome) (s : Step),
      load_plan [(name, singleStepDoc o { step_to_dict s with type := none })] name now =
        Except.error (LoadError.malformed FieldName.type)) ∧
    (∀ (name now : String) (o : Outcome) (s : Step),
      load_plan [(name, singleStepDoc o { step_to_dict s with priority := none })] name now =
        Except.error (LoadError.malformed FieldName.priority)) ∧
    (∀ (name now : String) (o : Outcome) (s : Step),
      load_plan [(name, singleStepDoc o { step_to_dict s with status := none })] name now =
        Except.error (LoadError.malformed FieldName.status)) ∧
    (∀ (name now : String) (o : Outcome) (s : Step),
      load_plan [(name, singleStepDoc o { step_to_dict s with estimated_duration := none })]
          name now = Except.error (LoadError.malformed FieldName.estimated_duration)) ∧
    (∀ (name now : String) (o : Outcome) (s : Step),
      load_plan [(name, singleStepDoc o { step_to_dict s with dependencies := none })] name now =
        Except.error (LoadError.malformed FieldName.dependencies)) ∧
    (∀ (name now : String) (o : Outcome) (s : Step),
      load_plan [(name, singleStepDoc o { step_to_dict s with success_criteria := none })]
          name now = Except.error (LoadError.malformed FieldName.success_criteria)) ∧
    (∀ (now : String) (s : Step),
      dict_to_step now { step_to_dict s with risks := none } =
        Except.ok (stepPostInit now { s with risks := [] })) ∧
    (∀ (now : String) (s : Step),
      dict_to_step now { step_to_dict s with resources_needed := none } =
        Except.ok (stepPostInit now { s with resources_needed := [] })) ∧
    (∀ (now : String) (s : Step),
      dict_to_step now (step_to_dict s) = Except.ok (stepPostInit now s)) := by
  refine ⟨?_, ?_, ?_, ?_, ?_, ?_, ?_, ?_, ?_, ?_, ?_, ?_, ?_, ?_, ?_, ?_, ?_, ?_, ?_, ?_,
    ?_, ?_, dict_to_step_roundtrip⟩
  · intro st name now h
    unfold load_plan
    rw [h]
  · intro name now o s tag h
    apply load_plan_single_step_error
    simp only [dict_to_step, step_to_dict, require, exceptBind_ok, exceptBind_error, h]
  · intro name now o s tag h
    apply load_plan_single_step_error
    simp only [dict_to_step, step_to_dict, require, exceptBind_ok, exceptBind_error,
      stepTypeOfTag_value, h]
  · intro name now o s tag h
    apply load_plan_single_step_error
    simp only [dict_to_step, step_to_dict, require, exceptBind_ok, exceptBind_error,
      stepTypeOfTag_value, priorityOfTag_value, h]
  · intro name now
    rw [load_plan_singleton]
    unfold noOutcomeDoc load_plan_doc
    simp only [require, exceptBind_error]
  · intro name now o
    rw [load_plan_singleton]
    unfold noStepsDoc load_plan_doc
    simp only [require, exceptBind_ok, outcome_of_doc_roundtrip, exceptBind_error]
  · intro name now o
    apply load_plan_outcome_error
    simp only [outcome_of_doc, outcome_to_doc, require, exceptBind_ok, exceptBind_error]
  · intro name now o
    apply load_plan_outcome_error
    simp only [outcome_of_doc, outcome_to_doc, require, exceptBind_ok, exceptBind_error]
  · intro name now o
    apply load_plan_outcome_error
    simp only [outcome_of_doc, outcome_to_doc, require, exceptBind_ok, exceptBind_error]
  · intro name now o
    apply load_plan_outcome_error
    simp only [outcome_of_doc, outcome_to_doc, require, exceptBind_ok, exceptBind_error]
  · intro name now o
    apply load_plan_outcome_error
    simp only [outcome_of_doc, outcome_to_doc, require, exceptBind_ok, exceptBind_error]
  · intro name now o s
    apply load_plan_single_step_error
    simp only [dict_to_step, step_to_dict, require, exceptBind_ok, exceptBind_error,
      stepTypeOfTag_value, priorityOfTag_value, stepStatusOfTag_value]
  · intro name now o s
    apply load_plan_single_step_error
    simp only [dict_to_step, step_to_dict, require, exceptBind_ok, exceptBind_error,
      stepTypeOfTag_value, priorityOfTag_value, stepStatusOfTag_value]
  · intro name now o s
    apply load_plan_single_step_error
    simp only [dict_to_step, step_to_dict, require, exceptBind_ok, exceptBind_error,
      stepTypeOfTag_value, priorityOfTag_value, stepStatusOfTag_value]
  · intro name now o s
    apply load_plan_single_step_error
    simp only [dict_to_step, step_to_dict, require, exceptBind_ok, exceptBind_error]
  · intro name now o s
    apply load_plan_single_step_error
    simp only [dict_to_step, step_to_dict, require, exceptBind_ok, exceptBind_error,
      stepTypeOfTag_value]
  · intro name now o s
    apply load_plan_single_step_error
    simp only [dict_to_step, step_to_dict, require, exceptBind_ok, exceptBind_error,
      stepTypeOfTag_value, priorityOfTag_value]
  · intro name now o s
    apply load_plan_single_step_error
    simp only [dict_to_step, step_to_dict, require, exceptBind_ok, exceptBind_error,
      stepTypeOfTag_value, priorityOfTag_value, stepStatusOfTag_value]
  · intro name now o s
    apply load_plan_single_step_error
    simp only [dict_to_step, step_to_dict, require, exceptBind_ok, exceptBind_error,
      stepTypeOfTag_value, priorityOfTag_value, stepStatusOfTag_value]
  · intro name now o s
    apply load_plan_single_step_error
    simp only [dict_to_step, step_to_dict, require, exceptBind_ok, exceptBind_error,
      stepTypeOfTag_value, priorityOfTag_value, stepStatusOfTag_value]
  · intro now s
    cases s with
    | mk i ti de ty pr st ed rn deps sc rk no ca ua coa =>
      cases ty <;> cases pr <;> cases st <;> rfl
  · intro now s
    cases s with
    | mk i ti de ty pr st ed rn deps sc rk no ca ua coa =>
      cases ty <;> cases pr <;> cases st <;> rfl

/-- Witness for C8's amended claim at concrete inputs, discharging every
hypothesis: empty storage has no document `nm`; the tag `"t0"` parses as
none of the three enums, making `load_plan` fail on a document whose
single step carries it as its `type`, `priority`, or `status` tag. -/
theorem c8_load_failure_modes_amended_witness :
    load_plan [] nm t1 = Except.error LoadError.notFound ∧
    load_plan [(nm, singleStepDoc outcome0 { step_to_dict stepC3 with type := some t0 })] nm t1 =
      Except.error (LoadError.malformed FieldName.type) ∧
    load_plan [(nm, singleStepDoc outcome0 { step_to_dict stepC3 with priority := some t0 })]
        nm t1 = Except.error (LoadError.malformed FieldName.priority) ∧
    load_plan [(nm, singleStepDoc outcome0 { step_to_dict stepC3 with status := some t0 })]
        nm t1 = Except.error (LoadError.malformed FieldName.status) :=
  ⟨c8_load_failure_modes_amended.1 [] nm t1 rfl,
   c8_load_failure_modes_amended.2.1 nm t1 outcome0 stepC3 t0 rfl,
   c8_load_failure_modes_amended.2.2.1 nm t1 outcome0 stepC3 t0 rfl,
   c8_load_failure_modes_amended.2.2.2.1 nm t1 outcome0 stepC3 t0 rfl⟩

/-- Witness for C4's amended claim at `planC4`: its step 1 has the single
unknown dependency 99, which carries path length 1, giving step 1 depth 2;
and the empty plan yields the empty critical path. -/
theorem c4_critical_path_totality_amended_witness :
    get_critical_path 7 emptyPlan = some [] ∧
    calculate_path_length (step_dict planC4) 6 [] 99 = some (1, [(99, 1)]) ∧
    (calculate_path_length (step_dict planC4) 7 [] 1).map Prod.fst = some 2 :=
  ⟨c4_critical_path_totality_amended.1 emptyPlan 7 rfl,
   c4_critical_path_totality_amended.2.1 planC4 5 [] 99 rfl (by decide),
   c4_critical_path_totality_amended.2.2 planC4 5 1
     (baseStep 1 [99] StepStatus.NOT_STARTED Priority.MEDIUM) (by decide) (by decide)
     (by decide)⟩

end Backcast
